import Mathlib

/-!
Verification of the crash-consistent persistence core of the todo
application: the schema validator (`src/todo-app/src/utils/validation.ts`),
the transaction layer (`atomicWrite` / `readStorage` / `validateStorage`
in the storage utility), the lease coordinator
(`src/todo-app-2/src/utils/tabLock.ts`) and the task-store mutations
(`taskStore`).

The browser's `localStorage` is modelled as a record with one slot per
key the code uses (`todo-app-data`, `todo-app-data-backup`,
`todo-app-lock`).  A stored string is represented by its parse shape:
`DocVal.doc d` stands for `JSON.stringify` of a document-shaped value
`d` (so `JSON.parse` succeeds on it and zod's `safeParse` succeeds
exactly when the schema predicate holds), and `DocVal.corrupt n` stands
for bytes on which `JSON.parse` throws (`n` only distinguishes distinct
corrupt strings).  `JSON.stringify` is deterministic and injective on
these fixed-field-order structures, so equality of `DocVal`s models
equality of the stored strings.  A thrown JavaScript exception is
modelled by the `JsErr` error component of a result; `localStorage`
`setItem` calls can be made to throw (quota) through explicit fault
flags, `getItem`/`removeItem` never throw.
-/

namespace TodoSpec

/-- Mirrors the `Task` shape of `TaskSchema` (validation.ts). -/
structure Task where
  id : String
  description : String
  completed : Bool
  createdAt : String
  completedAt : Option String
  date : String
deriving DecidableEq

/-- Mirrors `z.enum(['newest-first', 'oldest-first'])`. -/
inductive SortOrder
  | newestFirst
  | oldestFirst
deriving DecidableEq

/-- Mirrors `StorageMetadataSchema` (validation.ts). -/
structure StorageMetadata where
  version : String
  lastModified : String
  totalTaskCount : Int
  oldestTaskDate : Option String
  newestTaskDate : Option String
deriving DecidableEq

/-- Mirrors `UserPreferencesSchema` (validation.ts). -/
structure UserPreferences where
  lastViewedDate : String
  sortOrder : SortOrder
deriving DecidableEq

/-- Mirrors `AppDataSchema` (validation.ts): metadata, tasks, preferences. -/
structure AppData where
  metadata : StorageMetadata
  tasks : List Task
  preferences : UserPreferences
deriving DecidableEq

/-- Hexadecimal digit, as accepted by the uuid format check. -/
def isHexChar (c : Char) : Bool :=
  c.isDigit || ('a' ≤ c && c ≤ 'f') || ('A' ≤ c && c ≤ 'F')

/-- Embeds `z.string().uuid()`: the 8-4-4-4-12 hyphenated hex shape. -/
def isUuid (s : String) : Bool :=
  let cs := s.data
  cs.length == 36 &&
    (List.range 36).all (fun i =>
      let c := cs.getD i ' '
      if i == 8 || i == 13 || i == 18 || i == 23 then c == '-' else isHexChar c)

/-- Embeds the date regex of the schema: `^\d{4}-\d{2}-\d{2}$`. -/
def isDateString (s : String) : Bool :=
  match s.data with
  | [y1, y2, y3, y4, h1, m1, m2, h2, d1, d2] =>
      y1.isDigit && y2.isDigit && y3.isDigit && y4.isDigit &&
      h1 == '-' && m1.isDigit && m2.isDigit &&
      h2 == '-' && d1.isDigit && d2.isDigit
  | _ => false

/-- After the optional fraction dot: one or more digits then `Z`. -/
def digitsThenZ : List Char → Bool
  | ['Z'] => true
  | c :: rest => c.isDigit && digitsThenZ rest
  | [] => false

/-- Tail of a datetime after the seconds: `Z` or `.` digits `Z`. -/
def datetimeTail : List Char → Bool
  | ['Z'] => true
  | '.' :: c :: rest => c.isDigit && digitsThenZ rest
  | _ => false

/-- Embeds `z.string().datetime()`:
`YYYY-MM-DDTHH:MM:SS` then `Z` or `.` fractional digits `Z`. -/
def isDatetime (s : String) : Bool :=
  match s.data with
  | y1 :: y2 :: y3 :: y4 :: '-' :: mo1 :: mo2 :: '-' :: d1 :: d2 :: 'T' ::
    h1 :: h2 :: ':' :: mi1 :: mi2 :: ':' :: s1 :: s2 :: rest =>
      y1.isDigit && y2.isDigit && y3.isDigit && y4.isDigit &&
      mo1.isDigit && mo2.isDigit && d1.isDigit && d2.isDigit &&
      h1.isDigit && h2.isDigit && mi1.isDigit && mi2.isDigit &&
      s1.isDigit && s2.isDigit && datetimeTail rest
  | _ => false

/-- Embeds `TaskSchema`: uuid id, 1..500 description, datetime
`createdAt`, nullable datetime `completedAt`, date-regex `date`
(`completed` is boolean by type). -/
def validTask (t : Task) : Bool :=
  isUuid t.id &&
  (1 ≤ t.description.length && t.description.length ≤ 500) &&
  isDatetime t.createdAt &&
  (match t.completedAt with
   | none => true
   | some s => isDatetime s) &&
  isDateString t.date

/-- Embeds `StorageMetadataSchema`: any version string, datetime
`lastModified`, nonnegative integer count, nullable date-regex bounds. -/
def validMetadata (m : StorageMetadata) : Bool :=
  isDatetime m.lastModified &&
  (0 ≤ m.totalTaskCount) &&
  (match m.oldestTaskDate with
   | none => true
   | some s => isDateString s) &&
  (match m.newestTaskDate with
   | none => true
   | some s => isDateString s)

/-- Embeds `UserPreferencesSchema` (sort order is enum by type). -/
def validPreferences (p : UserPreferences) : Bool :=
  isDateString p.lastViewedDate

/-- Embeds `AppDataSchema.safeParse(...).success` on a document-shaped
value: every task must pass `TaskSchema`, the envelope must pass its
schemas.  `z.array(TaskSchema)` fails as soon as one element fails. -/
def validAppData (d : AppData) : Bool :=
  validMetadata d.metadata && d.tasks.all validTask && validPreferences d.preferences

/-- Parse shape of a string stored under the document or backup key:
`doc d` is `JSON.stringify` of a document-shaped value, `corrupt n`
is a string on which `JSON.parse` throws.  (A JSON-parseable value that
is not document-shaped behaves exactly like a `doc` failing the schema
check, so it needs no separate constructor for these claims.) -/
inductive DocVal
  | doc (d : AppData)
  | corrupt (n : Nat)
deriving DecidableEq

/-- Mirrors the `LockData` interface of tabLock.ts. -/
structure LockData where
  lockId : String
  timestamp : Int
deriving DecidableEq

/-- Parse shape of a string stored under the lock key. -/
inductive LockVal
  | lockJson (l : LockData)
  | corrupt (n : Nat)
deriving DecidableEq

/-- The shared `localStorage`, one slot per key the code uses:
`todo-app-data`, `todo-app-data-backup`, `todo-app-lock`.
`none` means the key is absent (`getItem` returns `null`). -/
structure Store where
  primary : Option DocVal
  backup : Option DocVal
  lock : Option LockVal
deriving DecidableEq

/-- A thrown JavaScript exception:
quota `DOMException` from `setItem`, `SyntaxError` from `JSON.parse`,
or `new Error(msg)`. -/
inductive JsErr
  | quotaExceeded
  | parseFailure
  | errMsg (msg : String)
deriving DecidableEq

/-- Fault injection for the three `setItem` call sites of `atomicWrite`
(backup write, primary write, rollback write).  A faulted `setItem`
throws a quota error and leaves the store unchanged. -/
structure WriteFaults where
  failBackupSet : Bool
  failPrimarySet : Bool
  failRollbackSet : Bool
deriving DecidableEq

/-- The `try` block of `atomicWrite` (storage utility): validate, back
up the current primary value if present, write the new value, read it
back and compare with what was serialized.  Returns the store as
mutated so far together with the thrown error, if any. -/
def atomicWriteTry (data : AppData) (s : Store) (f : WriteFaults) :
    Store × Except JsErr Unit :=
  if validAppData data then
    match s.primary with
    | some currentData =>
        if f.failBackupSet then (s, .error .quotaExceeded)
        else
          let s1 : Store := { s with backup := some currentData }
          if f.failPrimarySet then (s1, .error .quotaExceeded)
          else
            let s2 : Store := { s1 with primary := some (DocVal.doc data) }
            if s2.primary == some (DocVal.doc data) then (s2, .ok ())
            else (s2, .error (.errMsg "Write verification failed"))
    | none =>
        if f.failPrimarySet then (s, .error .quotaExceeded)
        else
          let s2 : Store := { s with primary := some (DocVal.doc data) }
          if s2.primary == some (DocVal.doc data) then (s2, .ok ())
          else (s2, .error (.errMsg "Write verification failed"))
  else (s, .error (.errMsg "Invalid data structure"))

/-- `atomicWrite` (storage utility): the `try` block above, plus the
`catch` block that reads the backup key and, when a backup is present,
writes it back into the primary key before re-throwing the original
error (if that rollback `setItem` itself throws, the quota error
propagates instead). -/
def atomicWrite (data : AppData) (s : Store) (f : WriteFaults) :
    Store × Except JsErr Unit :=
  match atomicWriteTry data s f with
  | (s1, .ok ()) => (s1, .ok ())
  | (s1, .error e) =>
      match s1.backup with
      | some b =>
          if f.failRollbackSet then (s1, .error .quotaExceeded)
          else ({ s1 with primary := some b }, .error e)
      | none => (s1, .error e)

/-- Body of `readStorage` before its `catch`: absent key yields `null`,
`JSON.parse` may throw, a schema-invalid parse yields `null`. -/
def readStorageBody (s : Store) : Except JsErr (Option AppData) :=
  match s.primary with
  | none => .ok none
  | some (DocVal.corrupt _) => .error .parseFailure
  | some (DocVal.doc d) =>
      if validAppData d then .ok (some d) else .ok none

/-- `readStorage` (storage utility): the body with its `catch`, which
converts any thrown error into `null`. -/
def readStorage (s : Store) : Except JsErr (Option AppData) :=
  match readStorageBody s with
  | .ok v => .ok v
  | .error _ => .ok none

/-- Body of `validateStorage` before its `catch`. -/
def validateStorageBody (s : Store) : Except JsErr Bool :=
  match s.primary with
  | none => .ok true
  | some (DocVal.corrupt _) => .error .parseFailure
  | some (DocVal.doc d) => .ok (validAppData d)

/-- `validateStorage` (storage utility): body plus `catch` → `false`. -/
def validateStorage (s : Store) : Except JsErr Bool :=
  match validateStorageBody s with
  | .ok b => .ok b
  | .error _ => .ok false

/-! ## Lease coordinator (tabLock.ts) -/

/-- `LOCK_TIMEOUT = 5 * 60 * 1000` (tabLock.ts). -/
def LOCK_TIMEOUT : Int := 5 * 60 * 1000

/-- `HEARTBEAT_INTERVAL = 30 * 1000` (tabLock.ts). -/
def HEARTBEAT_INTERVAL : Int := 30 * 1000

/-- The module-level mutable state of tabLock.ts that affects the
store: `currentLockId`.  (The heartbeat timer handle and the broadcast
channel touch no storage and are not modelled.) -/
structure TabCtx where
  currentLockId : Option String
deriving DecidableEq

/-- `getLockData` (tabLock.ts): `getItem` on the lock key, `JSON.parse`
inside a `catch` that converts a parse failure into `null`. -/
def getLockData (s : Store) : Option LockData :=
  match s.lock with
  | none => none
  | some (LockVal.lockJson l) => some l
  | some (LockVal.corrupt _) => none

/-- Result shape of `acquireTabLock`. -/
structure AcquireResult where
  acquired : Bool
  lockId : Option String
deriving DecidableEq

/-- `acquireTabLock` (tabLock.ts), with the current time, the fresh
`crypto.randomUUID()` value and the fault flag of its one `setItem`
passed in.  Reads the existing record; a record younger than
`LOCK_TIMEOUT` blocks acquisition; otherwise a fresh record is written
and read back for verification.  The surrounding `try`/`catch` turns a
thrown quota error into `{acquired: false, lockId: null}`, so the
result is always returned normally.  (`startHeartbeat` and the
`beforeunload` listener register timers/handlers and do not touch the
store.) -/
def acquireTabLock (s : Store) (ctx : TabCtx) (now : Int) (freshId : String)
    (failSet : Bool) : Store × TabCtx × Except JsErr AcquireResult :=
  match getLockData s with
  | some existingLock =>
      if now - existingLock.timestamp < LOCK_TIMEOUT then
        (s, ctx, .ok { acquired := false, lockId := none })
      else
        -- stale: fall through to acquisition (console.log only)
        if failSet then (s, ctx, .ok { acquired := false, lockId := none })
        else
          let s1 : Store := { s with lock := some (LockVal.lockJson ⟨freshId, now⟩) }
          if (getLockData s1).map LockData.lockId ≠ some freshId then
            (s1, ctx, .ok { acquired := false, lockId := none })
          else
            (s1, { ctx with currentLockId := some freshId },
              .ok { acquired := true, lockId := some freshId })
  | none =>
      if failSet then (s, ctx, .ok { acquired := false, lockId := none })
      else
        let s1 : Store := { s with lock := some (LockVal.lockJson ⟨freshId, now⟩) }
        if (getLockData s1).map LockData.lockId ≠ some freshId then
          (s1, ctx, .ok { acquired := false, lockId := none })
        else
          (s1, { ctx with currentLockId := some freshId },
            .ok { acquired := true, lockId := some freshId })

/-- `releaseTabLock` (tabLock.ts): remove the record only when the
stored identifier equals the argument; body wrapped in `try`/`catch`
(and `removeItem` never throws), so the call always returns normally.
(`stopHeartbeat` and the broadcast notification touch no storage.) -/
def releaseTabLock (lockId : String) (s : Store) (ctx : TabCtx) :
    Store × TabCtx × Except JsErr Unit :=
  match getLockData s with
  | some existingLock =>
      if existingLock.lockId == lockId then
        ({ s with lock := none }, { ctx with currentLockId := none }, .ok ())
      else (s, ctx, .ok ())
  | none => (s, ctx, .ok ())

/-- `isLockActive` (tabLock.ts): freshness check against
`LOCK_TIMEOUT`, no store mutation; `getLockData` does its own catching,
so the call always returns normally. -/
def isLockActive (s : Store) (now : Int) : Except JsErr Bool :=
  match getLockData s with
  | none => .ok false
  | some lock => .ok (decide (now - lock.timestamp < LOCK_TIMEOUT))

/-- `updateHeartbeat` (tabLock.ts): a no-op when `currentLockId` is
null; otherwise rewrites the lock record with `currentLockId` and the
current time — without reading the stored record first.  Its `setItem`
sits in a `try`/`catch` (console.error only), so a quota fault leaves
the store unchanged and the call returns normally. -/
def updateHeartbeat (s : Store) (ctx : TabCtx) (now : Int) (failSet : Bool) :
    Store × Except JsErr Unit :=
  match ctx.currentLockId with
  | none => (s, .ok ())
  | some id =>
      if failSet then (s, .ok ())
      else ({ s with lock := some (LockVal.lockJson ⟨id, now⟩) }, .ok ())

/-! ## Task-store mutations (taskStore, `src/unnamed/part_001`)

Each action reads the current document with `readStorage`, transforms
it, and persists the result with `atomicWrite`.  The functions below
are the document transformations sitting between those two calls; the
in-memory `set(...)` and the toast notifications have no effect on the
persisted document. -/

/-- JavaScript `x || y` on a nullable string: `null` and the empty
string are falsy. -/
def jsOr (x : Option String) (y : String) : String :=
  match x with
  | none => y
  | some s => if s.isEmpty then y else s

/-- The document update of `addTask` given the freshly constructed
task: append it, recount, stamp `newestTaskDate` with the new task's
date and `oldestTaskDate` with `currentData.metadata.oldestTaskDate ||
newTask.date`. -/
def addTaskData (d : AppData) (newTask : Task) (nowIso : String) : AppData :=
  let updatedTasks := d.tasks ++ [newTask]
  { d with
    tasks := updatedTasks
    metadata := { d.metadata with
      lastModified := nowIso
      totalTaskCount := updatedTasks.length
      newestTaskDate := some newTask.date
      oldestTaskDate := some (jsOr d.metadata.oldestTaskDate newTask.date) } }

/-- `addTask` (taskStore): trim and bound the description, construct
the task (`id` from `crypto.randomUUID()`, `createdAt` from the clock,
`date: date || getTodayISO()`), then the document update.  `none`
models the early `toast.error` returns that skip the write. -/
def addTask (d : AppData) (description : String) (dateArg : Option String)
    (freshId : String) (nowIso : String) (today : String) : Option AppData :=
  let trimmedDescription := description.trim
  if trimmedDescription.length == 0 then none
  else if trimmedDescription.length > 500 then none
  else
    let newTask : Task :=
      { id := freshId
        description := trimmedDescription
        completed := false
        createdAt := nowIso
        completedAt := none
        date := jsOr dateArg today }
    some (addTaskData d newTask nowIso)

/-- A `Partial<Task>` value: present fields override the task's. -/
structure TaskPatch where
  id : Option String
  description : Option String
  completed : Option Bool
  createdAt : Option String
  completedAt : Option (Option String)
  date : Option String
deriving DecidableEq

/-- JavaScript object spread `{ ...task, ...updates }`. -/
def applyPatch (t : Task) (p : TaskPatch) : Task :=
  { id := p.id.getD t.id
    description := p.description.getD t.description
    completed := p.completed.getD t.completed
    createdAt := p.createdAt.getD t.createdAt
    completedAt := p.completedAt.getD t.completedAt
    date := p.date.getD t.date }

/-- The document update of `updateTask` (taskStore): patch the matching
task, stamp `lastModified`; the count and date metadata are carried
over unchanged. -/
def updateTaskData (d : AppData) (id : String) (p : TaskPatch) (nowIso : String) :
    AppData :=
  { d with
    tasks := d.tasks.map (fun task => if task.id == id then applyPatch task p else task)
    metadata := { d.metadata with lastModified := nowIso } }

/-- The document update of `deleteTask` (taskStore): drop the matching
task, recount; the date metadata is carried over unchanged. -/
def deleteTaskData (d : AppData) (id : String) (nowIso : String) : AppData :=
  let updatedTasks := d.tasks.filter (fun task => task.id ≠ id)
  { d with
    tasks := updatedTasks
    metadata := { d.metadata with
      lastModified := nowIso
      totalTaskCount := updatedTasks.length } }

/-- The per-task update of `toggleTaskCompletion`: flip `completed`,
set `completedAt` from the clock when the task was pending, clear it
when it was completed. -/
def toggleTask (t : Task) (id : String) (nowIso : String) : Task :=
  if t.id == id then
    { t with
      completed := !t.completed
      completedAt := if !t.completed then some nowIso else none }
  else t

/-- The document update of `toggleTaskCompletion` (taskStore); the
count and date metadata are carried over unchanged. -/
def toggleTaskCompletionData (d : AppData) (id : String) (nowIso : String) : AppData :=
  { d with
    tasks := d.tasks.map (fun t => toggleTask t id nowIso)
    metadata := { d.metadata with lastModified := nowIso } }

/-- The document update of `bulkDeleteCompleted` (taskStore): keep the
pending tasks, recount; the date metadata is carried over unchanged. -/
def bulkDeleteCompletedData (d : AppData) (nowIso : String) : AppData :=
  let updatedTasks := d.tasks.filter (fun task => !task.completed)
  { d with
    tasks := updatedTasks
    metadata := { d.metadata with
      lastModified := nowIso
      totalTaskCount := updatedTasks.length } }

/-- What the `tasks` array computes for `oldestTaskDate`: the minimum
task date, `null` on an empty list (spec §3: metadata "must always
equal what `items` would compute"). -/
def computedOldestTaskDate (tasks : List Task) : Option String :=
  tasks.foldr
    (fun t acc =>
      match acc with
      | none => some t.date
      | some m => some (min t.date m))
    none

/-- What the `tasks` array computes for `newestTaskDate`: the maximum
task date, `null` on an empty list. -/
def computedNewestTaskDate (tasks : List Task) : Option String :=
  tasks.foldr
    (fun t acc =>
      match acc with
      | none => some t.date
      | some m => some (max t.date m))
    none

/-! ## Concrete documents used by the witnesses and counterexamples -/

/-- A schema-valid task. -/
def goodTask : Task :=
  { id := "123e4567-e89b-12d3-a456-426614174000"
    description := "Valid task"
    completed := false
    createdAt := "2025-01-01T00:00:00.000Z"
    completedAt := none
    date := "2025-01-15" }

/-- A structurally invalid task: non-uuid id, empty description,
unparseable `createdAt` (mirrors the partial-corruption fixture of the
integration test `src/unnamed/part_004`). -/
def badTask : Task :=
  { id := "invalid-uuid"
    description := ""
    completed := false
    createdAt := "invalid-date"
    completedAt := none
    date := "2025-01-15" }

/-- Schema-valid preferences. -/
def goodPrefs : UserPreferences :=
  { lastViewedDate := "2025-01-15", sortOrder := SortOrder.newestFirst }

/-- A schema-valid document with one task. -/
def docD : AppData :=
  { metadata :=
      { version := "1.0.0"
        lastModified := "2025-01-15T10:30:00.000Z"
        totalTaskCount := 1
        oldestTaskDate := some "2025-01-15"
        newestTaskDate := some "2025-01-15" }
    tasks := [goodTask]
    preferences := goodPrefs }

/-- A second schema-valid document, distinct from `docD` (no tasks). -/
def docP : AppData :=
  { metadata :=
      { version := "1.0.0"
        lastModified := "2025-01-10T08:00:00.000Z"
        totalTaskCount := 0
        oldestTaskDate := none
        newestTaskDate := none }
    tasks := []
    preferences := goodPrefs }

/-- A third schema-valid document, used as a stale backup value. -/
def docB : AppData :=
  { metadata :=
      { version := "1.0.0"
        lastModified := "2025-01-05T08:00:00.000Z"
        totalTaskCount := 0
        oldestTaskDate := none
        newestTaskDate := none }
    tasks := []
    preferences := { lastViewedDate := "2025-01-05", sortOrder := SortOrder.oldestFirst } }

/-- A schema-invalid document: negative `totalTaskCount`. -/
def docBad : AppData :=
  { metadata :=
      { version := "1.0.0"
        lastModified := "2025-01-15T10:30:00.000Z"
        totalTaskCount := -1
        oldestTaskDate := none
        newestTaskDate := none }
    tasks := []
    preferences := goodPrefs }

/-- A document whose envelope is schema-valid but whose tasks array
holds one invalid item among one valid item. -/
def docPartial : AppData :=
  { metadata :=
      { version := "1.0.0"
        lastModified := "2025-01-15T10:30:00.000Z"
        totalTaskCount := 2
        oldestTaskDate := some "2025-01-15"
        newestTaskDate := some "2025-01-15" }
    tasks := [goodTask, badTask]
    preferences := goodPrefs }

/-! ## Claim theorems -/

/-- C1: if the primary-key `setItem` of `atomicWrite D` throws after
the backup of the previously stored valid document `P` was taken, then
`atomicWrite` fails with an exception and `readStorage` afterwards
still returns `P` — whether or not the rollback write itself also
throws. -/
theorem atomicWrite_atomic_under_primary_set_failure
    (D P : AppData) (s : Store) (f3 : Bool)
    (hD : validAppData D = true) (hP : validAppData P = true)
    (hs : s.primary = some (DocVal.doc P)) :
    (∃ e, (atomicWrite D s ⟨false, true, f3⟩).2 = Except.error e) ∧
    readStorage (atomicWrite D s ⟨false, true, f3⟩).1 = Except.ok (some P) := by
  cases s with
  | mk primary backup lock =>
    cases hs
    cases f3 <;>
      simp [atomicWrite, atomicWriteTry, hD, readStorage, readStorageBody, hP]

/-- Witness for C1 at a concrete valid document and store. -/
theorem atomicWrite_atomic_under_primary_set_failure_witness :
    (∃ e, (atomicWrite docD ⟨some (DocVal.doc docP), none, none⟩ ⟨false, true, false⟩).2 =
      Except.error e) ∧
    readStorage (atomicWrite docD ⟨some (DocVal.doc docP), none, none⟩ ⟨false, true, false⟩).1 =
      Except.ok (some docP) :=
  atomicWrite_atomic_under_primary_set_failure docD docP
    ⟨some (DocVal.doc docP), none, none⟩ false (by decide) (by decide) rfl

/-- C5: writing a schema-valid document with `atomicWrite` from any
store state succeeds, and `readStorage` then returns that document. -/
theorem atomicWrite_readStorage_round_trip (D : AppData) (s : Store)
    (hD : validAppData D = true) :
    (atomicWrite D s ⟨false, false, false⟩).2 = Except.ok () ∧
    readStorage (atomicWrite D s ⟨false, false, false⟩).1 = Except.ok (some D) := by
  cases s with
  | mk primary backup lock =>
    cases primary <;>
      simp [atomicWrite, atomicWriteTry, hD, readStorage, readStorageBody]

/-- Witness for C5 at a concrete valid document and store. -/
theorem atomicWrite_readStorage_round_trip_witness :
    (atomicWrite docD ⟨some (DocVal.doc docP), some (DocVal.doc docB), none⟩
        ⟨false, false, false⟩).2 = Except.ok () ∧
    readStorage (atomicWrite docD ⟨some (DocVal.doc docP), some (DocVal.doc docB), none⟩
        ⟨false, false, false⟩).1 = Except.ok (some docD) :=
  atomicWrite_readStorage_round_trip docD
    ⟨some (DocVal.doc docP), some (DocVal.doc docB), none⟩ (by decide)

/-- C2: contrary to the claim, a schema-invalid document does not leave
the store untouched: the validation throw lands in the `catch` block,
which restores the stale backup of an earlier transaction into the
primary key, clobbering the current document.  Evaluated at a concrete
store holding `docP` under the primary key and stale `docB` under the
backup key. -/
theorem atomicWrite_invalid_input_restores_stale_backup :
    validAppData docBad = false ∧
    (atomicWrite docBad ⟨some (DocVal.doc docP), some (DocVal.doc docB), none⟩
        ⟨false, false, false⟩).2 = Except.error (JsErr.errMsg "Invalid data structure") ∧
    (atomicWrite docBad ⟨some (DocVal.doc docP), some (DocVal.doc docB), none⟩
        ⟨false, false, false⟩).1.primary = some (DocVal.doc docB) ∧
    docB ≠ docP := by
  refine ⟨by decide, ?_, ?_, by decide⟩ <;>
    simp [atomicWrite, atomicWriteTry, validAppData, validMetadata, docBad, goodPrefs]

/-- C3: contrary to the claim, a document with one structurally invalid
item among valid items is rejected wholesale: the envelope validates,
one of the two tasks validates, yet `readStorage` returns `null`
(forcing the corrupted/read-only path), not a partial result. -/
theorem readStorage_rejects_partially_corrupt_document :
    validMetadata docPartial.metadata = true ∧
    validPreferences docPartial.preferences = true ∧
    docPartial.tasks = [goodTask, badTask] ∧
    validTask goodTask = true ∧
    validTask badTask = false ∧
    readStorage ⟨some (DocVal.doc docPartial), none, none⟩ = Except.ok none := by
  refine ⟨by decide, by decide, rfl, by decide, by decide, by rfl⟩

/-- C9 (counterexample): `atomicWrite` does let an exception propagate
to its caller — on a schema-invalid document it throws
`Error('Invalid data structure')` (and its doc comment advertises
`@throws` on quota). -/
theorem atomicWrite_propagates_exception :
    (atomicWrite docBad ⟨none, none, none⟩ ⟨false, false, false⟩).2 =
      Except.error (JsErr.errMsg "Invalid data structure") := by
  simp [atomicWrite, atomicWriteTry, validAppData, validMetadata, docBad, goodPrefs]

/-- C9 (amended): `readStorage`, `validateStorage`, `acquireTabLock`,
`releaseTabLock` and `isLockActive` catch all storage-layer errors and
return typed results on every input, even when their `setItem` throws a
quota error; only `atomicWrite` propagates exceptions. -/
theorem storage_and_lock_ops_return_typed_results (s : Store) (ctx : TabCtx)
    (now : Int) (id : String) (failSet : Bool) :
    (∃ v, readStorage s = Except.ok v) ∧
    (∃ b, validateStorage s = Except.ok b) ∧
    (∃ r, (acquireTabLock s ctx now id failSet).2.2 = Except.ok r) ∧
    ((releaseTabLock id s ctx).2.2 = Except.ok ()) ∧
    (∃ b, isLockActive s now = Except.ok b) := by
  obtain ⟨primary, backup, lock⟩ := s
  refine ⟨?_, ?_, ?_, ?_, ?_⟩
  · rcases primary with _ | ⟨d⟩ | n
    · exact ⟨none, rfl⟩
    · by_cases h : validAppData d = true <;>
        simp [readStorage, readStorageBody, h]
    · exact ⟨none, rfl⟩
  · rcases primary with _ | ⟨d⟩ | n
    · exact ⟨true, rfl⟩
    · exact ⟨validAppData d, rfl⟩
    · exact ⟨false, rfl⟩
  · rcases lock with _ | ⟨l⟩ | n
    · cases failSet <;> simp [acquireTabLock, getLockData]
    · cases failSet <;> simp [acquireTabLock, getLockData] <;> split <;> simp
    · cases failSet <;> simp [acquireTabLock, getLockData]
  · rcases lock with _ | ⟨l⟩ | n
    · rfl
    · by_cases h : l.lockId = id <;> simp [releaseTabLock, getLockData, h]
    · rfl
  · rcases lock with _ | ⟨l⟩ | n
    · exact ⟨false, rfl⟩
    · exact ⟨_, rfl⟩
    · exact ⟨false, rfl⟩

/-- C4: if one coordinator acquires the lease on an empty lock slot,
a second `acquireTabLock` performed immediately afterwards (age below
`LOCK_TIMEOUT`) reports not-acquired and leaves the first coordinator's
record in place. -/
theorem lease_exclusivity (s : Store) (ctx1 ctx2 : TabCtx) (t1 t2 : Int)
    (id1 id2 : String) (hlock : s.lock = none)
    (hfresh : t2 - t1 < LOCK_TIMEOUT) :
    (acquireTabLock s ctx1 t1 id1 false).2.2 =
      Except.ok { acquired := true, lockId := some id1 } ∧
    (acquireTabLock (acquireTabLock s ctx1 t1 id1 false).1 ctx2 t2 id2 false).2.2 =
      Except.ok { acquired := false, lockId := none } ∧
    (acquireTabLock (acquireTabLock s ctx1 t1 id1 false).1 ctx2 t2 id2 false).1 =
      (acquireTabLock s ctx1 t1 id1 false).1 := by
  obtain ⟨primary, backup, lock⟩ := s
  cases hlock
  simp [acquireTabLock, getLockData, hfresh]

/-- Witness for C4 at concrete coordinators and times. -/
theorem lease_exclusivity_witness :
    (acquireTabLock ⟨none, none, none⟩ ⟨none⟩ 1000 "tab-one" false).2.2 =
      Except.ok { acquired := true, lockId := some "tab-one" } ∧
    (acquireTabLock (acquireTabLock ⟨none, none, none⟩ ⟨none⟩ 1000 "tab-one" false).1
        ⟨none⟩ 2000 "tab-two" false).2.2 =
      Except.ok { acquired := false, lockId := none } ∧
    (acquireTabLock (acquireTabLock ⟨none, none, none⟩ ⟨none⟩ 1000 "tab-one" false).1
        ⟨none⟩ 2000 "tab-two" false).1 =
      (acquireTabLock ⟨none, none, none⟩ ⟨none⟩ 1000 "tab-one" false).1 :=
  lease_exclusivity ⟨none, none, none⟩ ⟨none⟩ ⟨none⟩ 1000 2000 "tab-one" "tab-two"
    rfl (by decide)

/-- C7 (counterexample): the heartbeat does overwrite a lease record
whose stored identifier differs from the caller's — with
`currentLockId = "tab-a"` and the store holding `"tab-b"`'s record,
`updateHeartbeat` replaces it with a `"tab-a"` record. -/
theorem heartbeat_overwrites_foreign_record :
    getLockData ⟨none, none, some (LockVal.lockJson ⟨"tab-b", 1000⟩)⟩ =
      some ⟨"tab-b", 1000⟩ ∧
    ("tab-a" : String) ≠ "tab-b" ∧
    (updateHeartbeat ⟨none, none, some (LockVal.lockJson ⟨"tab-b", 1000⟩)⟩
        ⟨some "tab-a"⟩ 2000 false).1.lock =
      some (LockVal.lockJson ⟨"tab-a", 2000⟩) := by
  refine ⟨rfl, by decide, rfl⟩

/-- C7 (amended): `updateHeartbeat` never reads the stored record back:
whenever the module-level `currentLockId` is non-null and the write
does not fault, it rewrites the lock key with its own identifier and a
fresh timestamp, whatever identifier the store held; it never detects
loss of the lease. -/
theorem heartbeat_writes_without_ownership_check (s : Store) (ctx : TabCtx)
    (now : Int) (id : String) (hid : ctx.currentLockId = some id) :
    (updateHeartbeat s ctx now false).1 =
      { s with lock := some (LockVal.lockJson ⟨id, now⟩) } ∧
    (updateHeartbeat s ctx now false).2 = Except.ok () := by
  obtain ⟨cur⟩ := ctx
  cases hid
  simp [updateHeartbeat]

/-- Witness for C7's amended theorem: the holder's heartbeat stomps a
concrete foreign record. -/
theorem heartbeat_writes_without_ownership_check_witness :
    (updateHeartbeat ⟨none, none, some (LockVal.lockJson ⟨"tab-b", 1000⟩)⟩
        ⟨some "tab-a"⟩ 2000 false).1 =
      ⟨none, none, some (LockVal.lockJson ⟨"tab-a", 2000⟩)⟩ ∧
    (updateHeartbeat ⟨none, none, some (LockVal.lockJson ⟨"tab-b", 1000⟩)⟩
        ⟨some "tab-a"⟩ 2000 false).2 = Except.ok () :=
  heartbeat_writes_without_ownership_check
    ⟨none, none, some (LockVal.lockJson ⟨"tab-b", 1000⟩)⟩ ⟨some "tab-a"⟩ 2000 "tab-a" rfl

/-- C8: `releaseTabLock id` always returns normally; it removes the
record exactly when the stored identifier equals `id`, is a no-op on a
missing or foreign record, and a second release right after a first one
changes nothing. -/
theorem releaseTabLock_idempotent_and_safe (id : String) (s : Store)
    (ctx ctx2 : TabCtx) :
    (releaseTabLock id s ctx).2.2 = Except.ok () ∧
    (∀ l, getLockData s = some l → l.lockId = id →
      (releaseTabLock id s ctx).1 = { s with lock := none }) ∧
    (∀ l, getLockData s = some l → l.lockId ≠ id →
      (releaseTabLock id s ctx).1 = s) ∧
    (getLockData s = none → (releaseTabLock id s ctx).1 = s) ∧
    (releaseTabLock id (releaseTabLock id s ctx).1 ctx2).1 =
      (releaseTabLock id s ctx).1 := by
  obtain ⟨primary, backup, lock⟩ := s
  rcases lock with _ | ⟨l⟩ | n
  · simp [releaseTabLock, getLockData]
  · by_cases h : l.lockId = id
    · simp [releaseTabLock, getLockData, h]
    · simp [releaseTabLock, getLockData, h]
  · simp [releaseTabLock, getLockData]

/-- Witness for C8: releasing a concretely held lock removes it, and
releasing again is a no-op. -/
theorem releaseTabLock_idempotent_and_safe_witness :
    (releaseTabLock "tab-one" ⟨none, none, some (LockVal.lockJson ⟨"tab-one", 1000⟩)⟩
        ⟨some "tab-one"⟩).1 =
      { primary := none, backup := none, lock := none } ∧
    (releaseTabLock "tab-one"
        (releaseTabLock "tab-one" ⟨none, none, some (LockVal.lockJson ⟨"tab-one", 1000⟩)⟩
          ⟨some "tab-one"⟩).1 ⟨none⟩).1 =
      (releaseTabLock "tab-one" ⟨none, none, some (LockVal.lockJson ⟨"tab-one", 1000⟩)⟩
        ⟨some "tab-one"⟩).1 := by
  refine ⟨?_, ?_⟩
  · exact (releaseTabLock_idempotent_and_safe "tab-one"
      ⟨none, none, some (LockVal.lockJson ⟨"tab-one", 1000⟩)⟩
      ⟨some "tab-one"⟩ ⟨none⟩).2.1 ⟨"tab-one", 1000⟩ rfl rfl
  · exact (releaseTabLock_idempotent_and_safe "tab-one"
      ⟨none, none, some (LockVal.lockJson ⟨"tab-one", 1000⟩)⟩
      ⟨some "tab-one"⟩ ⟨none⟩).2.2.2.2

/-- C10: a lock-key value that does not parse as JSON is treated as
absent: `getLockData` returns `null` without throwing, `isLockActive`
is `false`, and `acquireTabLock` succeeds, writing a fresh record over
the corrupted one. -/
theorem corrupt_lock_record_treated_as_absent (n : Nat) (s : Store)
    (ctx : TabCtx) (now : Int) (freshId : String)
    (hs : s.lock = some (LockVal.corrupt n)) :
    getLockData s = none ∧
    isLockActive s now = Except.ok false ∧
    (acquireTabLock s ctx now freshId false).2.2 =
      Except.ok { acquired := true, lockId := some freshId } ∧
    (acquireTabLock s ctx now freshId false).1.lock =
      some (LockVal.lockJson ⟨freshId, now⟩) := by
  obtain ⟨primary, backup, lock⟩ := s
  cases hs
  simp [getLockData, isLockActive, acquireTabLock]

/-- Witness for C10 at a concrete corrupted lock record. -/
theorem corrupt_lock_record_treated_as_absent_witness :
    getLockData ⟨none, none, some (LockVal.corrupt 0)⟩ = none ∧
    isLockActive ⟨none, none, some (LockVal.corrupt 0)⟩ 1000 = Except.ok false ∧
    (acquireTabLock ⟨none, none, some (LockVal.corrupt 0)⟩ ⟨none⟩ 1000 "tab-one" false).2.2 =
      Except.ok { acquired := true, lockId := some "tab-one" } ∧
    (acquireTabLock ⟨none, none, some (LockVal.corrupt 0)⟩ ⟨none⟩ 1000 "tab-one" false).1.lock =
      some (LockVal.lockJson ⟨"tab-one", 1000⟩) :=
  corrupt_lock_record_treated_as_absent 0 ⟨none, none, some (LockVal.corrupt 0)⟩
    ⟨none⟩ 1000 "tab-one" rfl

/-- C6 (counterexample): deleting the only task of a fully consistent
valid document updates `totalTaskCount` but carries the date metadata
over unchanged, so `oldestTaskDate` stays set while the minimum over
the now-empty tasks array is `null`. -/
theorem deleteTask_leaves_stale_date_metadata :
    validAppData docD = true ∧
    docD.metadata.totalTaskCount = (docD.tasks.length : Int) ∧
    docD.metadata.oldestTaskDate = computedOldestTaskDate docD.tasks ∧
    docD.metadata.newestTaskDate = computedNewestTaskDate docD.tasks ∧
    (deleteTaskData docD goodTask.id "2025-01-16T09:00:00.000Z").tasks = [] ∧
    (deleteTaskData docD goodTask.id "2025-01-16T09:00:00.000Z").metadata.totalTaskCount = 0 ∧
    (deleteTaskData docD goodTask.id "2025-01-16T09:00:00.000Z").metadata.oldestTaskDate =
      some "2025-01-15" ∧
    computedOldestTaskDate (deleteTaskData docD goodTask.id "2025-01-16T09:00:00.000Z").tasks =
      none := by
  refine ⟨by decide, by rfl, by rfl, by rfl, by rfl, by rfl, by rfl, by rfl⟩

/-- C6 (amended): the mutations keep `totalTaskCount` equal to the
length of the tasks array (recomputing it where the length changes,
carrying it over where it does not), but they never recompute
`oldestTaskDate`/`newestTaskDate` from the tasks: `addTask` stamps
`newestTaskDate` with just the added task's date and fills
`oldestTaskDate` only when it was null, and the other mutations carry
both date fields over unchanged. -/
theorem mutations_recount_but_never_recompute_dates (d : AppData) (t : Task)
    (id nowIso : String) (p : TaskPatch)
    (h : d.metadata.totalTaskCount = (d.tasks.length : Int)) :
    (addTaskData d t nowIso).metadata.totalTaskCount =
      ((addTaskData d t nowIso).tasks.length : Int) ∧
    (deleteTaskData d id nowIso).metadata.totalTaskCount =
      ((deleteTaskData d id nowIso).tasks.length : Int) ∧
    (bulkDeleteCompletedData d nowIso).metadata.totalTaskCount =
      ((bulkDeleteCompletedData d nowIso).tasks.length : Int) ∧
    (updateTaskData d id p nowIso).metadata.totalTaskCount =
      ((updateTaskData d id p nowIso).tasks.length : Int) ∧
    (toggleTaskCompletionData d id nowIso).metadata.totalTaskCount =
      ((toggleTaskCompletionData d id nowIso).tasks.length : Int) ∧
    (addTaskData d t nowIso).metadata.newestTaskDate = some t.date ∧
    (addTaskData d t nowIso).metadata.oldestTaskDate =
      some (jsOr d.metadata.oldestTaskDate t.date) ∧
    (deleteTaskData d id nowIso).metadata.oldestTaskDate = d.metadata.oldestTaskDate ∧
    (deleteTaskData d id nowIso).metadata.newestTaskDate = d.metadata.newestTaskDate ∧
    (bulkDeleteCompletedData d nowIso).metadata.oldestTaskDate = d.metadata.oldestTaskDate ∧
    (bulkDeleteCompletedData d nowIso).metadata.newestTaskDate = d.metadata.newestTaskDate ∧
    (updateTaskData d id p nowIso).metadata.oldestTaskDate = d.metadata.oldestTaskDate ∧
    (updateTaskData d id p nowIso).metadata.newestTaskDate = d.metadata.newestTaskDate ∧
    (toggleTaskCompletionData d id nowIso).metadata.oldestTaskDate = d.metadata.oldestTaskDate ∧
    (toggleTaskCompletionData d id nowIso).metadata.newestTaskDate = d.metadata.newestTaskDate := by
  refine ⟨?_, ?_, ?_, ?_, ?_, rfl, rfl, rfl, rfl, rfl, rfl, rfl, rfl, rfl, rfl⟩ <;>
    simp [addTaskData, deleteTaskData, bulkDeleteCompletedData, updateTaskData,
      toggleTaskCompletionData, h]

/-- Witness for C6's amended theorem at a concrete consistent document. -/
theorem mutations_recount_but_never_recompute_dates_witness :
    (addTaskData docD goodTask "2025-01-16T09:00:00.000Z").metadata.totalTaskCount =
      ((addTaskData docD goodTask "2025-01-16T09:00:00.000Z").tasks.length : Int) ∧
    (deleteTaskData docD goodTask.id "2025-01-16T09:00:00.000Z").metadata.oldestTaskDate =
      docD.metadata.oldestTaskDate :=
  ⟨(mutations_recount_but_never_recompute_dates docD goodTask goodTask.id
      "2025-01-16T09:00:00.000Z"
      ⟨none, none, none, none, none, none⟩ (by decide)).1,
   (mutations_recount_but_never_recompute_dates docD goodTask goodTask.id
      "2025-01-16T09:00:00.000Z"
      ⟨none, none, none, none, none, none⟩ (by decide)).2.2.2.2.2.2.2.1⟩

end TodoSpec
